import Mathlib

/-!
Shallow embedding of the PyUnits dimensional-analysis library
(src/units.py) and verification of its specification claims.

Numbers are modelled as exact rationals (ℚ).  Python runtime exceptions
are modelled by the `Err` type and `Except`-valued operations; the
distinct Python behaviour of *returning* an error object (as opposed to
raising it) is modelled by the `Res.typeErrorValue` result constructor.
-/

namespace PyUnits

/-- Base dimensions (src/units.py lines 1-8, constants TIME..TEMPERATURE). -/
inductive Dim
  | time
  | length
  | mass
  | substance
  | luminous
  | current
  | temperature
deriving DecidableEq

/-- DIM_NAMES table (lines 10-18). -/
def DIM_NAMES : Dim → String
  | .time => "time"
  | .length => "length"
  | .mass => "mass"
  | .substance => "substance"
  | .luminous => "luminous"
  | .current => "current"
  | .temperature => "temperature"

/-- Global USE_UNICODE flag (line 20). -/
def USE_UNICODE : Bool := true

/-- A dimension dict: every one of the seven base dimensions has an
explicit integer exponent (the metaclass merges DIMENSIONLESS into every
class dict, so the dict is always total).  Field order is the dict
insertion order of DIMENSIONLESS (lines 22-30): time, length, mass,
substance, luminous, current, temperature. -/
structure Dims where
  time : ℤ
  length : ℤ
  mass : ℤ
  substance : ℤ
  luminous : ℤ
  current : ℤ
  temperature : ℤ
deriving DecidableEq

/-- The all-zero dict DIMENSIONLESS (lines 22-30). -/
def DIMENSIONLESS : Dims := ⟨0, 0, 0, 0, 0, 0, 0⟩

/-- dict.items() in Python 3.7+ insertion order: time first (lines 22-30),
preserved by .copy() and by update of existing keys. -/
def Dims.items (d : Dims) : List (Dim × ℤ) :=
  [(.time, d.time), (.length, d.length), (.mass, d.mass),
   (.substance, d.substance), (.luminous, d.luminous),
   (.current, d.current), (.temperature, d.temperature)]

/-- Exponent-wise sum, the `dimensions[dim] = exp + other._dimensions[dim]`
loop of `__mul__` (lines 132-134). -/
def Dims.combineAdd (a b : Dims) : Dims :=
  ⟨a.time + b.time, a.length + b.length, a.mass + b.mass,
   a.substance + b.substance, a.luminous + b.luminous,
   a.current + b.current, a.temperature + b.temperature⟩

/-- Exponent-wise difference, the loop of `__truediv__` (lines 151-153). -/
def Dims.combineSub (a b : Dims) : Dims :=
  ⟨a.time - b.time, a.length - b.length, a.mass - b.mass,
   a.substance - b.substance, a.luminous - b.luminous,
   a.current - b.current, a.temperature - b.temperature⟩

/-- Exponent-wise negation, the `dimensions[dim] = -exp` loop of
`__rtruediv__` (lines 166-168). -/
def Dims.negate (a : Dims) : Dims :=
  ⟨-a.time, -a.length, -a.mass, -a.substance,
   -a.luminous, -a.current, -a.temperature⟩

/-- The `any(list(zip(*dimensions.items()))[1])` test of lines 136 and 155:
true iff some exponent value of the dict is non-zero (Python truthiness of
an int). -/
def Dims.anyNonzero (d : Dims) : Bool :=
  (d.items.map Prod.snd).any fun e => e != 0

/-- char_map lookup of get_unicode_exp (lines 58-72).  `str(exp)` for an
integer only ever produces decimal digits and a leading minus sign, so
those are the only keys the Python dict is consulted for. -/
def char_map : Char → String
  | '1' => "¹"
  | '2' => "²"
  | '3' => "³"
  | '4' => "⁴"
  | '5' => "⁵"
  | '6' => "⁶"
  | '7' => "⁷"
  | '8' => "⁸"
  | '9' => "⁹"
  | '0' => "⁰"
  | '-' => "⁻"
  | _ => ""

/-- get_unicode_exp (lines 58-77): map char_map over the decimal string of
the exponent and concatenate. -/
def get_unicode_exp (exp : ℤ) : String :=
  ((toString exp).toList.map char_map).foldl (fun s c => s ++ c) ""

/-- format_unit_str (lines 80-89). -/
def format_unit_str (units : List (String × ℤ)) : String :=
  if USE_UNICODE then
    units.foldl (fun s p => s ++ p.1 ++ get_unicode_exp p.2) ""
  else
    String.intercalate "*" (units.map fun p => p.1 ++ "^" ++ toString p.2)

/-- A predeclared (named) unit class: symbol, dimension dict (as merged by
UnitMeta, lines 96-104) and the `_convert_to_SI` / `_convert_from_SI`
pair (defaults at lines 205-211, overridden by Kilometer, Gram,
DegreesCelsius). -/
structure UnitClass where
  symbol : String
  dims : Dims
  toSI : ℚ → ℚ
  fromSI : ℚ → ℚ

/-- class Second (lines 228-230): symbol "s", dims {TIME: 1}, identity
conversions. -/
def Second : UnitClass :=
  ⟨"s", ⟨1, 0, 0, 0, 0, 0, 0⟩, fun v => v, fun v => v⟩

/-- class Meter (lines 233-235): symbol "m", dims {LENGTH: 1}. -/
def Meter : UnitClass :=
  ⟨"m", ⟨0, 1, 0, 0, 0, 0, 0⟩, fun v => v, fun v => v⟩

/-- class Kilogram (lines 238-240): symbol "kg", dims {MASS: 1}. -/
def Kilogram : UnitClass :=
  ⟨"kg", ⟨0, 0, 1, 0, 0, 0, 0⟩, fun v => v, fun v => v⟩

/-- class Mole (lines 243-245): symbol "mol", dims {SUBSTANCE: 1}. -/
def Mole : UnitClass :=
  ⟨"mol", ⟨0, 0, 0, 1, 0, 0, 0⟩, fun v => v, fun v => v⟩

/-- class Candela (lines 248-250): symbol "cd", dims {LUMINOUS: 1}. -/
def Candela : UnitClass :=
  ⟨"cd", ⟨0, 0, 0, 0, 1, 0, 0⟩, fun v => v, fun v => v⟩

/-- class Ampere (lines 253-255): symbol "A", dims {CURRENT: 1}. -/
def Ampere : UnitClass :=
  ⟨"A", ⟨0, 0, 0, 0, 0, 1, 0⟩, fun v => v, fun v => v⟩

/-- class Kelvin (lines 258-260): symbol "K", dims {TEMPERATURE: 1}. -/
def Kelvin : UnitClass :=
  ⟨"K", ⟨0, 0, 0, 0, 0, 0, 1⟩, fun v => v, fun v => v⟩

/-- class Kilometer (lines 308-316): symbol "km", dims {LENGTH: 1},
to-SI `value * 1000.0`, from-SI `value / 1000.0`. -/
def Kilometer : UnitClass :=
  ⟨"km", ⟨0, 1, 0, 0, 0, 0, 0⟩, fun v => v * 1000, fun v => v / 1000⟩

/-- class DegreesCelsius (lines 330-338): symbol "C",
dims {TEMPERATURE: 1}, to-SI `value + 273.15`, from-SI `value - 273.15`. -/
def DegreesCelsius : UnitClass :=
  ⟨"C", ⟨0, 0, 0, 0, 0, 0, 1⟩, fun v => v + 273.15, fun v => v - 273.15⟩

/-- SI_BASE_UNITS table (lines 263-271), mapping each base dimension to
its base unit class. -/
def SI_BASE_UNITS : Dim → UnitClass
  | .time => Second
  | .length => Meter
  | .mass => Kilogram
  | .substance => Mole
  | .luminous => Candela
  | .current => Ampere
  | .temperature => Kelvin

/-- The runtime class of a unit instance: either a predeclared named class
or CompoundUnit (whose dimension dict is an instance attribute set in its
constructor, lines 277-280). -/
inductive UnitKind
  | named (c : UnitClass)
  | compound (dims : Dims)

/-- `self._dimensions` of an instance. -/
def UnitKind.dims : UnitKind → Dims
  | .named c => c.dims
  | .compound d => d

/-- `self._convert_to_SI`: CompoundUnit inherits the identity default of
Unit (lines 205-207). -/
def UnitKind.toSI : UnitKind → ℚ → ℚ
  | .named c => c.toSI
  | .compound _ => fun v => v

/-- `self._convert_from_SI`: CompoundUnit inherits the identity default of
Unit (lines 209-211). -/
def UnitKind.fromSI : UnitKind → ℚ → ℚ
  | .named c => c.fromSI
  | .compound _ => fun v => v

/-- A unit instance: its runtime class and its stored canonical SI
magnitude `_value`. -/
structure UnitVal where
  kind : UnitKind
  value : ℚ

/-- `self._dimensions`. -/
def UnitVal.dims (u : UnitVal) : Dims := u.kind.dims

/-- `self._get_value()` (lines 196-197): the native-scale value. -/
def UnitVal.native (u : UnitVal) : ℚ := u.kind.fromSI u.value

/-- The two-argument CompoundUnit constructor (lines 277-280): stores the
dimension dict, then `Unit.__init__` stores
`_value = _convert_to_SI(value)` with the inherited identity rule. -/
def CompoundUnit.make (value : ℚ) (dims : Dims) : UnitVal :=
  ⟨.compound dims, UnitKind.toSI (.compound dims) value⟩

/-- The synthesized symbol of a CompoundUnit (lines 282-286): base-unit
symbols with exponents, for nonzero exponents, in dict order. -/
def CompoundUnit.symbolOf (dims : Dims) : String :=
  format_unit_str
    ((dims.items.filter fun p => p.2 != 0).map
      fun p => ((SI_BASE_UNITS p.1).symbol, p.2))

/-- `self._get_symbol()`: the class `_symbol` for named classes, the
synthesized string stored by the CompoundUnit constructor otherwise. -/
def UnitVal.symbol : UnitVal → String
  | ⟨.named c, _⟩ => c.symbol
  | ⟨.compound d, _⟩ => CompoundUnit.symbolOf d

/-- Python runtime exceptions raised by the library. -/
inductive Err
  | incompatibleUnits
  | typeError
  | nameError
  | zeroDivision
deriving DecidableEq

/-- An operand of an arithmetic operation: a Python number, a Unit
instance, or any other object (neither isinstance check matches). -/
inductive Operand
  | num (k : ℚ)
  | unit (u : UnitVal)
  | other

/-- A value returned by an operator: a plain number, a unit instance, or
a TypeError *object* returned (not raised) by the
`return TypeError(...)` lines 141, 160 and 172. -/
inductive Res
  | num (q : ℚ)
  | unit (u : UnitVal)
  | typeErrorValue

/-- The single-argument constructor call `self.__class__(value)` /
`Unit.__init__` (lines 110-120).  For a named class: a number is
converted to SI; a unit of the same dimension dict has its `_value`
copied verbatim, otherwise IncompatibleUnitsError (lines 113-118); any
other operand raises TypeError (line 120).  For CompoundUnit the
single-argument call itself raises TypeError: `CompoundUnit.__init__`
requires the second positional argument `dimensions` (line 277). -/
def construct : UnitKind → Operand → Except Err UnitVal
  | .named c, .num k => .ok ⟨.named c, c.toSI k⟩
  | .named c, .unit v =>
      if v.dims = c.dims then .ok ⟨.named c, v.value⟩
      else .error .incompatibleUnits
  | .named _, .other => .error .typeError
  | .compound _, _ => .error .typeError

/-- `Unit.__mul__` (lines 127-141).  Note line 141 *returns* the
TypeError instead of raising it. -/
def UnitVal.mul (self : UnitVal) : Operand → Except Err Res
  | .num k =>
      (construct self.kind (.num (self.native * k))).map Res.unit
  | .unit w =>
      let valSI := self.value * w.value
      let dimensions := self.dims.combineAdd w.dims
      if !dimensions.anyNonzero then .ok (.num valSI)
      else .ok (.unit (CompoundUnit.make valSI dimensions))
  | .other => .ok .typeErrorValue

/-- `Unit.__truediv__` (lines 146-160).  Python raises ZeroDivisionError
on division by a zero number; line 160 *returns* the TypeError. -/
def UnitVal.div (self : UnitVal) : Operand → Except Err Res
  | .num k =>
      if k = 0 then .error .zeroDivision
      else (construct self.kind (.num (self.native / k))).map Res.unit
  | .unit w =>
      if w.value = 0 then .error .zeroDivision
      else
        let valSI := self.value / w.value
        let dimensions := self.dims.combineSub w.dims
        if !dimensions.anyNonzero then .ok (.num valSI)
        else .ok (.unit (CompoundUnit.make valSI dimensions))
  | .other => .ok .typeErrorValue

/-- `Unit.__rtruediv__` (lines 162-172), i.e. `other / self` for a
non-unit left operand: SI value `self._convert_to_SI(other /
self._get_value())`, negated dimension dict, always a CompoundUnit.
Division by a zero native value raises ZeroDivisionError; a non-number
operand hits the `return TypeError(...)` at line 172. -/
def UnitVal.rdiv (self : UnitVal) : Operand → Except Err Res
  | .num k =>
      if self.native = 0 then .error .zeroDivision
      else
        let valSI := self.kind.toSI (k / self.native)
        .ok (.unit (CompoundUnit.make valSI self.dims.negate))
  | _ => .ok .typeErrorValue

/-- `Unit.__add__` (lines 174-183).  On a dimension mismatch the code
evaluates the undefined name `IncompatibleUnitError` (the defined class
is `IncompatibleUnitsError`), so Python raises NameError (line 180); a
non-unit operand raises TypeError (line 183). -/
def UnitVal.add (self : UnitVal) : Operand → Except Err Res
  | .unit w =>
      if w.dims = self.dims then
        (construct self.kind
          (.num (self.kind.fromSI (self.value + w.value)))).map Res.unit
      else .error .nameError
  | _ => .error .typeError

/-- `Unit.__sub__` (lines 185-194), identical to add with canonical
subtraction, including the undefined-name NameError at line 191. -/
def UnitVal.sub (self : UnitVal) : Operand → Except Err Res
  | .unit w =>
      if w.dims = self.dims then
        (construct self.kind
          (.num (self.kind.fromSI (self.value - w.value)))).map Res.unit
      else .error .nameError
  | _ => .error .typeError

/-- `Unit.get_dimensions` (lines 213-218). -/
def UnitVal.get_dimensions (self : UnitVal) : String :=
  format_unit_str
    ((self.dims.items.filter fun p => p.2 != 0).map
      fun p => (DIM_NAMES p.1, p.2))

/-- DIMENSION_NAMES table (lines 39-55) in dict insertion order. -/
def DIMENSION_NAMES : List (String × Dims) :=
  [("time", ⟨1, 0, 0, 0, 0, 0, 0⟩),
   ("length", ⟨0, 1, 0, 0, 0, 0, 0⟩),
   ("mass", ⟨0, 0, 1, 0, 0, 0, 0⟩),
   ("substance", ⟨0, 0, 0, 1, 0, 0, 0⟩),
   ("luminous intensity", ⟨0, 0, 0, 0, 1, 0, 0⟩),
   ("electrical current", ⟨0, 0, 0, 0, 0, 1, 0⟩),
   ("temperature", ⟨0, 0, 0, 0, 0, 0, 1⟩),
   ("velocity", ⟨-1, 1, 0, 0, 0, 0, 0⟩),
   ("acceleration", ⟨-2, 1, 0, 0, 0, 0, 0⟩),
   ("momentum", ⟨-1, 1, 1, 0, 0, 0, 0⟩),
   ("force", ⟨-2, 1, 1, 0, 0, 0, 0⟩),
   ("energy", ⟨-2, 2, 1, 0, 0, 0, 0⟩)]

/-- The `for typ, dim in DIMENSION_NAMES.items()` scan of
`get_unit_type` (lines 220-224). -/
def scanUnitType : List (String × Dims) → Dims → String
  | [], _ => "complex type"
  | (typ, dm) :: rest, d => if d = dm then typ else scanUnitType rest d

/-- `Unit.get_unit_type` (lines 220-224). -/
def UnitVal.get_unit_type (self : UnitVal) : String :=
  scanUnitType DIMENSION_NAMES self.dims

/-- Construction of a named unit from a plain number, `C(k)` in Python:
the success path of `construct`. -/
def UnitClass.build (c : UnitClass) (k : ℚ) : UnitVal :=
  ⟨.named c, c.toSI k⟩

lemma anyNonzero_eq_false_iff (d : Dims) :
    d.anyNonzero = false ↔ d = DIMENSIONLESS := by
  obtain ⟨a, b, c, e, f, g, h⟩ := d
  simp [Dims.anyNonzero, Dims.items, DIMENSIONLESS, Dims.mk.injEq]

lemma anyNonzero_dimensionless : DIMENSIONLESS.anyNonzero = false := rfl

/-- C1: multiplying unit values gives the canonical product with
exponent-wise summed dimension vector, dividing gives the canonical
quotient with exponent-wise subtracted vector; an all-zero result vector
collapses to the plain number, otherwise a CompoundUnit with that vector
and the canonical magnitude is returned.  Multiplication holds for every
pair; the division conjunct carries a nonzero-divisor hypothesis, which
excludes only the ZeroDivisionError inputs treated separately. -/
theorem unit_mul_div_canonical (u v : UnitVal) :
    (u.mul (.unit v) =
      if u.dims.combineAdd v.dims = DIMENSIONLESS then
        .ok (.num (u.value * v.value))
      else
        .ok (.unit (CompoundUnit.make (u.value * v.value)
          (u.dims.combineAdd v.dims)))) ∧
    (v.value ≠ 0 →
      u.div (.unit v) =
      if u.dims.combineSub v.dims = DIMENSIONLESS then
        .ok (.num (u.value / v.value))
      else
        .ok (.unit (CompoundUnit.make (u.value / v.value)
          (u.dims.combineSub v.dims)))) := by
  constructor
  · cases hb : (u.dims.combineAdd v.dims).anyNonzero with
    | false =>
        simp [UnitVal.mul, hb, (anyNonzero_eq_false_iff _).mp hb,
          anyNonzero_dimensionless]
    | true =>
        have h2 : u.dims.combineAdd v.dims ≠ DIMENSIONLESS := by
          intro hh
          rw [(anyNonzero_eq_false_iff _).mpr hh] at hb
          exact Bool.false_ne_true hb
        simp [UnitVal.mul, hb, h2]
  · intro hv
    cases hb : (u.dims.combineSub v.dims).anyNonzero with
    | false =>
        simp [UnitVal.div, hv, hb, (anyNonzero_eq_false_iff _).mp hb,
          anyNonzero_dimensionless]
    | true =>
        have h2 : u.dims.combineSub v.dims ≠ DIMENSIONLESS := by
          intro hh
          rw [(anyNonzero_eq_false_iff _).mpr hh] at hb
          exact Bool.false_ne_true hb
        simp [UnitVal.div, hv, hb, h2]

/-- Witness for C1: Meter(6) * Second(2) and Meter(6) / Second(2), plus
the multiplication conjunct at the zero-magnitude operand Second(0),
where no hypothesis is needed. -/
theorem unit_mul_div_canonical_wit :
    (Second.build 2).value ≠ 0 ∧
    (Meter.build 6).mul (.unit (Second.build 2)) =
      .ok (.unit (CompoundUnit.make 12 ⟨1, 1, 0, 0, 0, 0, 0⟩)) ∧
    (Meter.build 6).div (.unit (Second.build 2)) =
      .ok (.unit (CompoundUnit.make 3 ⟨-1, 1, 0, 0, 0, 0, 0⟩)) ∧
    (Meter.build 1).mul (.unit (Second.build 0)) =
      .ok (.unit (CompoundUnit.make 0 ⟨1, 1, 0, 0, 0, 0, 0⟩)) := by
  have hv : (Second.build 2).value ≠ 0 := by decide
  refine ⟨hv, ?_, ?_, ?_⟩
  · rw [(unit_mul_div_canonical (Meter.build 6) (Second.build 2)).1,
      if_neg (by decide)]
    simp [Meter, Second, UnitClass.build, UnitVal.value, UnitVal.dims,
      UnitKind.dims, Dims.combineAdd, CompoundUnit.make, UnitKind.toSI]
    norm_num
  · rw [(unit_mul_div_canonical (Meter.build 6) (Second.build 2)).2 hv,
      if_neg (by decide)]
    simp [Meter, Second, UnitClass.build, UnitVal.value, UnitVal.dims,
      UnitKind.dims, Dims.combineSub, CompoundUnit.make, UnitKind.toSI]
    norm_num
  · rw [(unit_mul_div_canonical (Meter.build 1) (Second.build 0)).1,
      if_neg (by decide)]
    simp [Meter, Second, UnitClass.build, UnitVal.value, UnitVal.dims,
      UnitKind.dims, Dims.combineAdd, CompoundUnit.make, UnitKind.toSI]

/-- C2 (code bug): adding or subtracting unit values with different
dimension vectors does fail, but with NameError (the raise statement
references the undefined name IncompatibleUnitError; the defined class
is IncompatibleUnitsError), not with the IncompatibleUnits error. -/
theorem add_sub_incompatible_raises_undefined_name :
    (Meter.build 1).add (.unit (Second.build 1)) = .error .nameError ∧
    (Meter.build 1).sub (.unit (Second.build 1)) = .error .nameError ∧
    Err.nameError ≠ Err.incompatibleUnits :=
  ⟨rfl, rfl, by decide⟩

/-- C4: DegreesCelsius(0) is stored canonically as 273.15, and
DegreesCelsius(0) + DegreesCelsius(10) adds the canonical magnitudes
273.15 + 283.15 = 556.30 and converts back by subtracting 273.15, so the
result has native value 283.15 (the documented affine-addition defect). -/
theorem celsius_affine_addition_defect :
    (DegreesCelsius.build 0).value = 273.15 ∧
    (DegreesCelsius.build 0).value + (DegreesCelsius.build 10).value
      = 556.30 ∧
    (DegreesCelsius.build 0).add (.unit (DegreesCelsius.build 10)) =
      .ok (.unit (DegreesCelsius.build 283.15)) ∧
    (DegreesCelsius.build 283.15).value = 556.30 ∧
    (DegreesCelsius.build 283.15).native = 283.15 := by
  refine ⟨?_, ?_, ?_, ?_, ?_⟩ <;>
    norm_num [DegreesCelsius, UnitClass.build, UnitVal.add, construct,
      UnitVal.value, UnitVal.native, UnitVal.dims, UnitKind.dims,
      UnitKind.fromSI, UnitKind.toSI, Except.map]

/-- C3 counterexample: for Unit Values of the CompoundUnit class the
claim fails — adding the compound Meter(10)/Second(2) to itself (equal
dimension vectors) raises TypeError, because `self.__class__(...)` calls
the two-argument CompoundUnit constructor with one argument; no new
instance of the left operand's variant is returned. -/
theorem add_compound_left_raises :
    (Meter.build 10).div (.unit (Second.build 2)) =
      .ok (.unit (CompoundUnit.make 5 ⟨-1, 1, 0, 0, 0, 0, 0⟩)) ∧
    (CompoundUnit.make 5 ⟨-1, 1, 0, 0, 0, 0, 0⟩).add
      (.unit (CompoundUnit.make 5 ⟨-1, 1, 0, 0, 0, 0, 0⟩)) =
      .error .typeError := by
  refine ⟨?_, rfl⟩
  norm_num [UnitVal.div, Meter, Second, UnitClass.build, UnitVal.value,
    UnitVal.dims, UnitKind.dims, Dims.combineSub, Dims.anyNonzero,
    Dims.items, CompoundUnit.make, UnitKind.toSI]

/-- C3 (amended): for every pair of Unit Values with equal dimension
vectors whose left operand is an instance of a predeclared named variant,
addition sums the canonical magnitudes and returns a new instance of the
left operand's variant rendered through its native scale; in particular
Kilometer(5) + Meter(500) has native value 5.5 and symbol "km". -/
theorem add_same_dims_named_variant (c : UnitClass) (val : ℚ) (v : UnitVal)
    (h : v.dims = c.dims) :
    (UnitVal.mk (.named c) val).add (.unit v) =
      .ok (.unit ⟨.named c, c.toSI (c.fromSI (val + v.value))⟩) ∧
    (Kilometer.build 5).add (.unit (Meter.build 500)) =
      .ok (.unit (Kilometer.build 5.5)) ∧
    (Kilometer.build 5.5).native = 5.5 ∧
    (Kilometer.build 5.5).symbol = "km" := by
  refine ⟨?_, ?_, ?_, rfl⟩
  · have hd : v.dims = (UnitVal.mk (.named c) val).dims := h
    simp [UnitVal.add, hd, construct, UnitKind.fromSI, UnitKind.toSI,
      Except.map, UnitVal.dims, UnitKind.dims]
    exact h
  · norm_num [UnitVal.add, Kilometer, Meter, UnitClass.build, construct,
      UnitVal.dims, UnitKind.dims, UnitVal.value, UnitKind.fromSI,
      UnitKind.toSI, Except.map]
  · norm_num [Kilometer, UnitClass.build, UnitVal.native, UnitKind.fromSI,
      UnitVal.value, UnitKind.toSI]

/-- Witness for C3 (amended) at Kilometer(5) + Meter(500). -/
theorem add_same_dims_named_variant_wit :
    (Meter.build 500).dims = Kilometer.dims ∧
    (Kilometer.build 5).add (.unit (Meter.build 500)) =
      .ok (.unit (Kilometer.build 5.5)) := by
  have h : (Meter.build 500).dims = Kilometer.dims := rfl
  exact ⟨h, (add_same_dims_named_variant Kilometer 0 (Meter.build 500) h).2.1⟩

/-- C5: a plain number k divided by a Unit Value u always yields a
CompoundUnit with the exponent-wise negated dimension vector and
canonical magnitude obtained by applying u's own to-canonical rule to
k / (u's native value); it never collapses to a plain number; in
particular 1 / Second(1) is a Compound while Second(1) / Second(1) is
the plain number 1. -/
theorem rdiv_always_compound (k : ℚ) (u : UnitVal) (h : u.native ≠ 0) :
    u.rdiv (.num k) =
      .ok (.unit (CompoundUnit.make (u.kind.toSI (k / u.native))
        u.dims.negate)) ∧
    (∀ q : ℚ, u.rdiv (.num k) ≠ .ok (.num q)) ∧
    (Second.build 1).rdiv (.num 1) =
      .ok (.unit (CompoundUnit.make 1 ⟨-1, 0, 0, 0, 0, 0, 0⟩)) ∧
    (Second.build 1).div (.unit (Second.build 1)) = .ok (.num 1) := by
  have h1 : u.rdiv (.num k) =
      .ok (.unit (CompoundUnit.make (u.kind.toSI (k / u.native))
        u.dims.negate)) := by
    simp [UnitVal.rdiv, h]
  refine ⟨h1, ?_, ?_, ?_⟩
  · intro q
    rw [h1]
    simp
  · norm_num [UnitVal.rdiv, Second, UnitClass.build, UnitVal.native,
      UnitKind.fromSI, UnitVal.value, UnitKind.toSI, UnitVal.dims,
      UnitKind.dims, Dims.negate, CompoundUnit.make]
  · norm_num [UnitVal.div, Second, UnitClass.build, UnitVal.value,
      UnitVal.dims, UnitKind.dims, Dims.combineSub, Dims.anyNonzero,
      Dims.items, UnitKind.toSI]

/-- Witness for C5 at 2 / Meter(3). -/
theorem rdiv_always_compound_wit :
    (Meter.build 3).native ≠ 0 ∧
    (Meter.build 3).rdiv (.num 2) =
      .ok (.unit (CompoundUnit.make (2 / 3 : ℚ) ⟨0, -1, 0, 0, 0, 0, 0⟩)) := by
  have h : (Meter.build 3).native ≠ 0 := by decide
  refine ⟨h, ?_⟩
  rw [(rdiv_always_compound 2 (Meter.build 3) h).1]
  norm_num [Meter, UnitClass.build, UnitVal.native, UnitKind.fromSI,
    UnitKind.toSI, UnitVal.value, UnitVal.dims, UnitKind.dims, Dims.negate,
    CompoundUnit.make]

/-- C6 counterexample: the synthesized symbol of Meter(10)/Second(2) is
not "m¹s⁻¹" — the dimension dict iterates with the time entry first, so
the seconds factor is emitted before the meters factor. -/
theorem compound_symbol_not_length_first :
    (Meter.build 10).div (.unit (Second.build 2)) =
      .ok (.unit (CompoundUnit.make 5 ⟨-1, 1, 0, 0, 0, 0, 0⟩)) ∧
    (CompoundUnit.make 5 ⟨-1, 1, 0, 0, 0, 0, 0⟩).symbol ≠ "m¹s⁻¹" := by
  constructor
  · norm_num [UnitVal.div, Meter, Second, UnitClass.build, UnitVal.value,
      UnitVal.dims, UnitKind.dims, Dims.combineSub, Dims.anyNonzero,
      Dims.items, CompoundUnit.make, UnitKind.toSI]
  · decide

/-- C6 (amended): Meter(10)/Second(2) returns a CompoundUnit whose native
and canonical value is 5 and whose displayed symbol is "s⁻¹m¹", built by
concatenating, for every base dimension with nonzero exponent, the
base-unit symbol with its formatted exponent, in base-dimension
declaration order (time before length). -/
theorem meter_per_second_compound :
    (Meter.build 10).div (.unit (Second.build 2)) =
      .ok (.unit (CompoundUnit.make 5 ⟨-1, 1, 0, 0, 0, 0, 0⟩)) ∧
    (CompoundUnit.make 5 ⟨-1, 1, 0, 0, 0, 0, 0⟩).native = 5 ∧
    (CompoundUnit.make 5 ⟨-1, 1, 0, 0, 0, 0, 0⟩).value = 5 ∧
    (CompoundUnit.make 5 ⟨-1, 1, 0, 0, 0, 0, 0⟩).symbol = "s⁻¹m¹" ∧
    (CompoundUnit.make 5 ⟨-1, 1, 0, 0, 0, 0, 0⟩).symbol =
      format_unit_str [("s", -1), ("m", 1)] := by
  refine ⟨?_, by decide, by decide, by decide, by decide⟩
  norm_num [UnitVal.div, Meter, Second, UnitClass.build, UnitVal.value,
    UnitVal.dims, UnitKind.dims, Dims.combineSub, Dims.anyNonzero,
    Dims.items, CompoundUnit.make, UnitKind.toSI]

/-- C8 (code bug): when multiply or divide receives an operand that is
neither a number nor a Unit Value, the operator *returns* the TypeError
object as a value instead of raising it (the `return TypeError(...)`
lines); only construction raises the error as the claim states. -/
theorem operator_bad_operand_returns_error_value :
    (Meter.build 1).mul .other = .ok .typeErrorValue ∧
    (Meter.build 1).div .other = .ok .typeErrorValue ∧
    (Meter.build 1).rdiv .other = .ok .typeErrorValue ∧
    construct (.named Meter) .other = .error .typeError :=
  ⟨rfl, rfl, rfl, rfl⟩

lemma scanUnitType_eq_find (l : List (String × Dims)) (d : Dims) :
    scanUnitType l d =
      ((l.find? fun p => decide (p.2 = d)).map Prod.fst).getD
        "complex type" := by
  induction l with
  | nil => rfl
  | cons hd tl ih =>
      obtain ⟨t, dm⟩ := hd
      by_cases h : d = dm
      · simp [scanUnitType, h, List.find?]
      · have h2 : ¬ dm = d := fun hh => h hh.symm
        simp [scanUnitType, h, h2, List.find?, ih]

/-- C9: get_unit_type scans the DIMENSION_NAMES table in registration
order and returns the first name whose dimension vector equals the
value's exactly, else the sentinel "complex type"; Meter(1)/Second(1) is
"velocity", Kilogram(1)*Meter(1)/Second(1)/Second(1) is "force", and
mass times luminous intensity is the sentinel. -/
theorem get_unit_type_first_match :
    (∀ u : UnitVal, u.get_unit_type =
      ((DIMENSION_NAMES.find? fun p => decide (p.2 = u.dims)).map
        Prod.fst).getD "complex type") ∧
    (Meter.build 1).div (.unit (Second.build 1)) =
      .ok (.unit (CompoundUnit.make 1 ⟨-1, 1, 0, 0, 0, 0, 0⟩)) ∧
    (CompoundUnit.make 1 ⟨-1, 1, 0, 0, 0, 0, 0⟩).get_unit_type =
      "velocity" ∧
    (Kilogram.build 1).mul (.unit (Meter.build 1)) =
      .ok (.unit (CompoundUnit.make 1 ⟨0, 1, 1, 0, 0, 0, 0⟩)) ∧
    (CompoundUnit.make 1 ⟨0, 1, 1, 0, 0, 0, 0⟩).div
      (.unit (Second.build 1)) =
      .ok (.unit (CompoundUnit.make 1 ⟨-1, 1, 1, 0, 0, 0, 0⟩)) ∧
    (CompoundUnit.make 1 ⟨-1, 1, 1, 0, 0, 0, 0⟩).div
      (.unit (Second.build 1)) =
      .ok (.unit (CompoundUnit.make 1 ⟨-2, 1, 1, 0, 0, 0, 0⟩)) ∧
    (CompoundUnit.make 1 ⟨-2, 1, 1, 0, 0, 0, 0⟩).get_unit_type =
      "force" ∧
    (Kilogram.build 1).mul (.unit (Candela.build 1)) =
      .ok (.unit (CompoundUnit.make 1 ⟨0, 0, 1, 0, 1, 0, 0⟩)) ∧
    (CompoundUnit.make 1 ⟨0, 0, 1, 0, 1, 0, 0⟩).get_unit_type =
      "complex type" := by
  refine ⟨fun u => scanUnitType_eq_find DIMENSION_NAMES u.dims,
    ?_, by decide, ?_, ?_, ?_, by decide, ?_, by decide⟩
  all_goals
    norm_num [UnitVal.mul, UnitVal.div, Kilogram, Meter, Second, Candela,
      UnitClass.build, UnitVal.value, UnitVal.dims, UnitKind.dims,
      Dims.combineAdd, Dims.combineSub, Dims.anyNonzero, Dims.items,
      CompoundUnit.make, UnitKind.toSI]

/-- C10: division is unguarded against zero: dividing a unit by the
plain number 0, by a unit whose canonical magnitude is 0, or dividing a
plain number by a unit whose native value is 0 raises ZeroDivisionError,
which is distinct from both documented library error kinds. -/
theorem division_by_zero_unguarded :
    (∀ u : UnitVal, u.div (.num 0) = .error .zeroDivision) ∧
    (∀ u v : UnitVal, v.value = 0 →
      u.div (.unit v) = .error .zeroDivision) ∧
    (∀ (u : UnitVal) (k : ℚ), u.native = 0 →
      u.rdiv (.num k) = .error .zeroDivision) ∧
    Err.zeroDivision ≠ Err.incompatibleUnits ∧
    Err.zeroDivision ≠ Err.typeError := by
  refine ⟨fun u => ?_, fun u v h => ?_, fun u k h => ?_,
    by decide, by decide⟩
  · simp [UnitVal.div]
  · simp [UnitVal.div, h]
  · simp [UnitVal.rdiv, h]

/-- Witness for C10 at Meter(1) / 0, Meter(1) / Second(0) and
7 / Meter(0). -/
theorem division_by_zero_unguarded_wit :
    (Second.build 0).value = 0 ∧
    (Meter.build 0).native = 0 ∧
    (Meter.build 1).div (.num 0) = .error .zeroDivision ∧
    (Meter.build 1).div (.unit (Second.build 0)) = .error .zeroDivision ∧
    (Meter.build 0).rdiv (.num 7) = .error .zeroDivision := by
  have h1 : (Second.build 0).value = 0 := rfl
  have h2 : (Meter.build 0).native = 0 := rfl
  exact ⟨h1, h2, division_by_zero_unguarded.1 (Meter.build 1),
    division_by_zero_unguarded.2.1 (Meter.build 1) (Second.build 0) h1,
    division_by_zero_unguarded.2.2.1 (Meter.build 0) 7 h2⟩

end PyUnits
